import Mathlib

/-!
Shallow embedding of `src/frontend/src/app/pages/home/home.component.ts`
(the `HomeComponent` view-model and the `routes` table) for the
salon-booking frontend, together with theorems settling the testable
properties of its specification.
-/

/-- A service offering as declared in the `services` array of the component. -/
structure Service where
  title : String
  description : String
  price : String
  icon : String
  color : String
  image : String
deriving DecidableEq

/-- A statistic as declared in the `stats` array of the component. -/
structure Stat where
  value : String
  label : String
deriving DecidableEq

/-- A footer link as declared in the `footerLinks` array of the component. -/
structure FooterLink where
  label : String
  href : String
deriving DecidableEq

/-- The `HomeComponent` class: a static data holder with four fields. -/
structure HomeComponent where
  isLoggedIn : Bool
  services : List Service
  stats : List Stat
  footerLinks : List FooterLink
deriving DecidableEq

/-- The view components referenced by the routing module (the routing file
imports `Login` and `HomeComponent`). -/
inductive ViewComponent where
  | home
  | login
deriving DecidableEq

/-- One entry of the Angular `Routes` table: a path and the component type. -/
structure RouteEntry where
  path : String
  component : ViewComponent
deriving DecidableEq

/-- The literal initializer of the `services` field. -/
def servicesInit : List Service :=
  [ ⟨"Стрижки и укладки",
     "Модные стрижки, профессиональные укладки и окрашивание волос",
     "от 1 500 ₽", "scissors", "pink",
     "https://images.unsplash.com/photo-1563798163029-5448a0ffd596?w=600&q=80"⟩,
    ⟨"Маникюр и педикюр",
     "Классический и аппаратный маникюр, педикюр, дизайн ногтей",
     "от 1 200 ₽", "sparkles", "purple",
     "https://images.unsplash.com/photo-1727199433272-70fdb94c8430?w=600&q=80"⟩,
    ⟨"СПА процедуры",
     "Массаж, уход за кожей лица и тела, релаксирующие процедуры",
     "от 2 000 ₽", "star", "indigo",
     "https://images.unsplash.com/photo-1745327883508-b6cd32e5dde5?w=600&q=80"⟩ ]

/-- The literal initializer of the `stats` field. -/
def statsInit : List Stat :=
  [ ⟨"500+", "Довольных клиентов"⟩,
    ⟨"15+", "Лет опыта"⟩,
    ⟨"4.9", "Рейтинг"⟩ ]

/-- The literal initializer of the `footerLinks` field. -/
def footerLinksInit : List FooterLink :=
  [ ⟨"Стрижки", "#"⟩,
    ⟨"Окрашивание", "#"⟩,
    ⟨"Маникюр", "#"⟩,
    ⟨"СПА", "#"⟩ ]

/-- Construction of a `HomeComponent`: the class constructor takes no
arguments and every field is initialized to its literal initializer. -/
def mkHomeComponent : HomeComponent :=
  ⟨false, servicesInit, statsInit, footerLinksInit⟩

/-- The `routes` table declared in the routing module:
`[{path:'', component:HomeComponent}]`. -/
def routes : List RouteEntry :=
  [⟨"", ViewComponent.home⟩]

/-- Lookup of a path in the route table: the component of the first entry
whose declared path equals the given path, if any. -/
def lookupRoute (p : String) : Option ViewComponent :=
  (routes.find? (fun r => r.path == p)).map RouteEntry.component

/-- C1: the route table maps the root (empty) path to the HomeComponent and
no two entries in the route table share the same path. -/
theorem routes_root_is_home_and_paths_nodup :
    lookupRoute "" = some ViewComponent.home ∧
    (routes.map RouteEntry.path).Nodup := by
  decide

/-- C2: the authentication flag of a freshly constructed Home view-model is
`false`. -/
theorem isLoggedIn_initially_false :
    mkHomeComponent.isLoggedIn = false := rfl

/-- C3: the services list of the Home view-model contains exactly 3 entries,
each with non-empty title, description, price and image fields. -/
theorem services_three_entries_nonempty_fields :
    mkHomeComponent.services.length = 3 ∧
    mkHomeComponent.services.all
      (fun s => s.title != "" && s.description != "" &&
                s.price != "" && s.image != "") = true := by
  decide

/-- C4: the stats list of the Home view-model contains exactly 3 entries. -/
theorem stats_three_entries :
    mkHomeComponent.stats.length = 3 := rfl

/-- C5: the footer links list of the Home view-model contains exactly 4
entries. -/
theorem footerLinks_four_entries :
    mkHomeComponent.footerLinks.length = 4 := rfl

/-- C6: for every path other than the empty/root path, the route table
contains no entry, so lookup yields no component. -/
theorem lookupRoute_nonroot_none (p : String) (h : p ≠ "") :
    lookupRoute p = none := by
  have hb : ("" == p) = false := beq_eq_false_iff_ne.mpr fun e => h e.symm
  simp [lookupRoute, routes, List.find?, hb]

/-- Witness for C6: the concrete non-root path "login" has no entry. -/
theorem lookupRoute_nonroot_none_witness :
    "login" ≠ "" ∧ lookupRoute "login" = none :=
  ⟨by decide, lookupRoute_nonroot_none "login" (by decide)⟩

/-- C7: the Home view-model is exactly its four fields (isLoggedIn, services,
stats, footerLinks) — any instance is determined by them — and the
constructed instance keeps the initial literal value of every field. -/
theorem homeComponent_four_fields_and_immutable :
    (∀ c : HomeComponent,
        c = ⟨c.isLoggedIn, c.services, c.stats, c.footerLinks⟩) ∧
    mkHomeComponent.isLoggedIn = false ∧
    mkHomeComponent.services = servicesInit ∧
    mkHomeComponent.stats = statsInit ∧
    mkHomeComponent.footerLinks = footerLinksInit :=
  ⟨fun _ => rfl, rfl, rfl, rfl, rfl⟩

/-- C9: construction is deterministic — it takes no input, and any two
constructed instances agree on all four fields. -/
theorem construction_deterministic (c₁ c₂ : HomeComponent)
    (h₁ : c₁ = mkHomeComponent) (h₂ : c₂ = mkHomeComponent) :
    c₁.isLoggedIn = c₂.isLoggedIn ∧ c₁.services = c₂.services ∧
    c₁.stats = c₂.stats ∧ c₁.footerLinks = c₂.footerLinks := by
  subst h₁; subst h₂; exact ⟨rfl, rfl, rfl, rfl⟩

/-- Witness for C9: the determinism theorem applied to two constructions. -/
theorem construction_deterministic_witness :
    mkHomeComponent.isLoggedIn = mkHomeComponent.isLoggedIn ∧
    mkHomeComponent.services = mkHomeComponent.services ∧
    mkHomeComponent.stats = mkHomeComponent.stats ∧
    mkHomeComponent.footerLinks = mkHomeComponent.footerLinks :=
  construction_deterministic mkHomeComponent mkHomeComponent rfl rfl

/-- C8: every entry in the footer links list has the placeholder string "#"
as its href field. -/
theorem footerLinks_href_placeholder :
    mkHomeComponent.footerLinks.all (fun l => l.href == "#") = true := by
  decide

/-- C10: every entry in the stats list has a non-empty value field and a
non-empty label field. -/
theorem stats_fields_nonempty :
    mkHomeComponent.stats.all
      (fun s => s.value != "" && s.label != "") = true := by
  decide
